import Mathlib

/-
Verification development for the oula-transfer daily metrics job.

The program (Go, two variants: src/main.go and an older variant kept as
src/unnamed/part_000) is a daily scheduler that wakes at a configured
"HH:MM" time, opens a PostgreSQL (source) and a MySQL (destination)
connection, runs a fixed catalog of scalar COUNT queries against the
source and inserts each result as a (date, count) row into a per-metric
destination table.

Model conventions:
- instants are whole seconds on a timeline with no zone changes; a day is
  86400 seconds (time.Date / Add(24h) arithmetic);
- the source database is an oracle `Query := String -> Option Int`:
  `none` models any error of QueryRow(...).Scan (no rows, NULL, connection
  or query error), `some n` a successful scalar read;
- the destination database is a row list plus an oracle marking tables
  whose INSERT fails for a non-duplicate reason; the PRIMARY KEY (date)
  of each table rejects a second row for the same date (dupKey);
- os.Exit(1) / log.Fatalf are modelled as an `Except Nat` error carrying
  the exit code; Go's `defer` runs only on normal return, so the deferred
  Close calls are recorded as having run only when no exit fired.
-/

namespace OulaTransfer

/-! ### Time model and the scheduler (main.go lines 30-41) -/

def secondsPerDay : Nat := 86400

/-- Midnight of the current day: `time.Date(now.Year(), now.Month(), now.Day(), 0, 0, ...)`. -/
def todayStart (now : Nat) : Nat := now / secondsPerDay * secondsPerDay

/-- Seconds into the day denoted by an hour and a minute. -/
def timeOfDay (h m : Nat) : Nat := h * 3600 + m * 60

/-- Today at the given time of day: `time.Date(now.Year(), now.Month(), now.Day(), execHour, execMinute, 0, 0, now.Location())` (main.go line 33). -/
def todayAt (now h m : Nat) : Nat := todayStart now + timeOfDay h m

/-- Tomorrow at the given time of day: the `execution.Add(24 * time.Hour)` branch. -/
def tomorrowAt (now h m : Nat) : Nat := todayAt now h m + secondsPerDay

/-- The due time computed by one loop iteration (main.go lines 31-36):
today at HH:MM, advanced by 24 hours when `now.After(execution)`. -/
def nextExecution (now h m : Nat) : Nat :=
  let execution := todayAt now h m
  if execution < now then execution + secondsPerDay else execution

/-! ### parseExecutionTime (main.go lines 43-47)

`fmt.Sscanf(timeStr, "%d:%d", &hour, &minute)` with both the item count
and the error ignored: a `%d` skips leading white space and reads an
optionally signed digit run; the literal `:` must match the next input
character; a variable that is never assigned keeps its zero value. -/

def isSpaceChar (c : Char) : Bool :=
  c == ' ' || c == '\t' || c == '\n' || c == '\x0d' || c == '\x0b' || c == '\x0c'

/-- Accumulate a run of decimal digits (the digit run of a `%d` item). -/
def scanDigits (acc : Nat) : List Char → Nat × List Char
  | [] => (acc, [])
  | c :: cs =>
    if c.isDigit then scanDigits (acc * 10 + (c.toNat - 48)) cs else (acc, c :: cs)

/-- One `%d` item of Sscanf: skip white space, then an optional sign and at
least one digit; `none` when no digit is found (the scan stops there). -/
def scanInt (cs : List Char) : Option (Int × List Char) :=
  match cs.dropWhile isSpaceChar with
  | '-' :: c :: rest =>
    if c.isDigit then
      let p := scanDigits 0 (c :: rest)
      some (-(p.1 : Int), p.2)
    else none
  | '+' :: c :: rest =>
    if c.isDigit then
      let p := scanDigits 0 (c :: rest)
      some ((p.1 : Int), p.2)
    else none
  | c :: rest =>
    if c.isDigit then
      let p := scanDigits 0 (c :: rest)
      some ((p.1 : Int), p.2)
    else none
  | [] => none

/-- parseExecutionTime (main.go lines 43-47): Sscanf "%d:%d" with its error
discarded; whatever was assigned is returned, the rest stays zero. -/
def parseExecutionTime (timeStr : String) : Int × Int :=
  match scanInt timeStr.data with
  | none => (0, 0)
  | some (hour, rest) =>
    match rest with
    | ':' :: rest2 =>
      match scanInt rest2 with
      | none => (hour, 0)
      | some (minute, _) => (hour, minute)
    | _ => (hour, 0)

/-! ### Calendar dates

`time.Now().Format("2006-01-02")` (main.go line 66): the run-start instant
rendered as a zero-padded YYYY-MM-DD date. Days are converted to a civil
date with the standard era-based algorithm (valid here for all instants
at or after 1970-01-01, day number 0). -/

def civilFromDays (z : Nat) : Nat × Nat × Nat :=
  let zz := z + 719468
  let era := zz / 146097
  let doe := zz % 146097
  let yoe := (doe - doe / 1460 + doe / 36524 - doe / 146096) / 365
  let y := yoe + era * 400
  let doy := doe - (365 * yoe + yoe / 4 - yoe / 100)
  let mp := (5 * doy + 2) / 153
  let d := doy - (153 * mp + 2) / 5 + 1
  let mo := if mp < 10 then mp + 3 else mp - 9
  (if mo ≤ 2 then y + 1 else y, mo, d)

def pad2 (n : Nat) : String := if n < 10 then "0" ++ toString n else toString n

def pad4 (n : Nat) : String :=
  if n < 10 then "000" ++ toString n
  else if n < 100 then "00" ++ toString n
  else if n < 1000 then "0" ++ toString n
  else toString n

/-- The calendar date of an instant, formatted as Go's layout "2006-01-02". -/
def formatDate (now : Nat) : String :=
  let ymd := civilFromDays (now / secondsPerDay)
  pad4 ymd.1 ++ "-" ++ pad2 ymd.2.1 ++ "-" ++ pad2 ymd.2.2

/-! ### The two database collaborators -/

/-- The source store: a query either yields a scalar or fails
(`none` covers query errors, no rows and NULL — every case in which
`QueryRow(query).Scan(&count)` returns a non-nil error). -/
def Query := String → Option Int

/-- One persisted destination row `(date, count)` in the table named `table`. -/
structure Row where
  table : String
  date : String
  count : Int
deriving DecidableEq

/-- The destination store: its rows, plus an oracle marking tables whose
INSERT fails for a reason other than the duplicate key. -/
structure DestDB where
  rows : List Row
  failing : String → Bool

inductive InsertResult where
  | ok
  | dupKey
  | genuineErr
deriving DecidableEq

/-- One INSERT into the destination: a genuine error when the table is
marked failing, a duplicate-key rejection when the table already holds a
row for that date (PRIMARY KEY (date) in the DDL), a new row otherwise. -/
def dbInsert (db : DestDB) (tableName date : String) (count : Int) :
    InsertResult × DestDB :=
  if db.failing tableName then (InsertResult.genuineErr, db)
  else if db.rows.any fun r => r.table == tableName && r.date == date then
    (InsertResult.dupKey, db)
  else
    (InsertResult.ok,
      { db with rows := { table := tableName, date := date, count := count } :: db.rows })

/-! ### queryCount and insertToMySQL (main.go lines 132-150)

Both helpers end the whole process on any error: queryCount logs and calls
os.Exit(1); insertToMySQL logs and calls os.Exit(1) for every non-nil
error of db.Exec, the duplicate-key rejection included (the older variant
uses log.Fatalf, which is log + os.Exit(1) as well). The exit is modelled
as `Except.error` carrying the exit code. -/

def queryCount (src : Query) (q : String) : Except Nat Int :=
  match src q with
  | some n => Except.ok n
  | none => Except.error 1

def insertToMySQL (db : DestDB) (tableName date : String) (count : Int) :
    DestDB × Except Nat Unit :=
  match dbInsert db tableName date count with
  | (InsertResult.ok, db2) => (db2, Except.ok ())
  | (InsertResult.dupKey, db2) => (db2, Except.error 1)
  | (InsertResult.genuineErr, db2) => (db2, Except.error 1)

/-! ### The metric catalogs -/

structure MetricDef where
  table : String
  query : String
deriving DecidableEq

/-- Query of metric 1 of src/main.go (line 69). -/
def aleoActiveMachinesQuery : String :=
  "SELECT count(*) FROM machine m WHERE to_timestamp(m.last_commit_solution) >= DATE(NOW()) AND project='ALEO'"

/-- Query of metric 2 of src/main.go (line 73). -/
def quaiActiveMachinesQuery : String :=
  "SELECT count(*) FROM machine m WHERE to_timestamp(m.last_commit_solution) >= DATE(NOW()) AND project='Quai_Garden'"

/-- Query of metric 3 of src/main.go (lines 77-85). -/
def lostUsersQuery : String :=
  "WITH machine_activity AS (\n\t\tSELECT ma.main_user_id, MAX(m.last_commit_solution) AS max_last_commit_solution\n\t\tFROM miner_account ma\n\t\tJOIN machine m ON m.miner_account_id = ma.id\n\t\tGROUP BY ma.main_user_id\n\t)\n\tSELECT COUNT(distinct u.email) FROM public.\"user\" u\n\tLEFT JOIN machine_activity ma ON ma.main_user_id = u.id\n\tWHERE  to_timestamp(ma.max_last_commit_solution) < (DATE_TRUNC('day', NOW()) - INTERVAL '1 days')"

/-- Query of metric 4 of src/main.go (lines 90-105). -/
def aleoChannelQuery : String :=
  "WITH select_user AS(\n\t\tSELECT u.email, ma.id, ma.name\n\t\tFROM miner_account ma\n\t\tLEFT JOIN \"public\".\"user\" u ON u.id = ma.main_user_id\n\t\tLEFT JOIN invitation_code ic ON ic.\"id\" = u.invitation_code_id\n\t\tWHERE ic.tag in (\n\t\t\tSELECT tag\n\t\t\t\tFROM bonus_obj\n\t\t\t\tWHERE user_id IS NULL \n\t\t\t\t\tAND project = 'ALEO' \n\t\t\t\t\tAND tag !='default'\n\t\t\t\t)\n\t)\n\tSELECT count(*) FROM machine m \n\tJOIN select_user su ON m.miner_account_id = su.id\n\tWHERE to_timestamp(m.last_commit_solution) >= DATE(NOW())"

/-- Query of metric 5 of src/main.go (lines 110-125); it carries the
source's unclosed string literal after Quai_Garden verbatim. -/
def quaiChannelQuery : String :=
  "WITH select_user AS(\n\t\tSELECT u.email, ma.id, ma.name\n\t\tFROM miner_account ma\n\t\tLEFT JOIN \"public\".\"user\" u ON u.id = ma.main_user_id\n\t\tLEFT JOIN invitation_code ic ON ic.\"id\" = u.invitation_code_id\n\t\tWHERE ic.tag in (\n\t\t\tSELECT tag\n\t\t\t\tFROM bonus_obj\n\t\t\t\tWHERE user_id IS NULL \n\t\t\t\t\tAND project = 'Quai_Garden \n\t\t\t\t\tAND tag !='default'\n\t\t\t\t)\n\t)\n\tSELECT count(*) FROM machine m \n\tJOIN select_user su ON m.miner_account_id = su.id\n\tWHERE to_timestamp(m.last_commit_solution) >= DATE(NOW())"

def mAleoActive : MetricDef :=
  { table := "active_machines_count_aleo", query := aleoActiveMachinesQuery }

def mQuaiActive : MetricDef :=
  { table := "active_machines_count_quai_garden", query := quaiActiveMachinesQuery }

def mLostUsers : MetricDef :=
  { table := "lost_users_count", query := lostUsersQuery }

def mAleoChannel : MetricDef :=
  { table := "active_channel_machines_count_aleo", query := aleoChannelQuery }

def mQuaiChannel : MetricDef :=
  { table := "active_channel_machines_count_quai_garden", query := quaiChannelQuery }

/-- The five metrics of src/main.go's transferData, in program order. -/
def mainCatalog : List MetricDef :=
  [mAleoActive, mQuaiActive, mLostUsers, mAleoChannel, mQuaiChannel]

/-- Query of metric 1 of the older variant (src/unnamed/part_000 line 60). -/
def oldMachinesQuery : String :=
  "SELECT count(*) FROM machine m WHERE to_timestamp(m.last_commit_solution) >= DATE(NOW())"

/-- Query of metric 2 of the older variant (src/unnamed/part_000 line 64). -/
def oldActiveMachinesQuery : String :=
  "SELECT count(*) FROM machine m WHERE to_timestamp(m.last_commit_solution) >= DATE(NOW())"

/-- Query of metric 3 of the older variant (src/unnamed/part_000 lines 68-77). -/
def oldLostUsersQuery : String :=
  "WITH machine_activity AS (\n\t\tSELECT ma.main_user_id, MAX(m.last_commit_solution) AS max_last_commit_solution\n\t\tFROM miner_account ma\n\t\tJOIN machine m ON m.miner_account_id = ma.id\n\t\tGROUP BY ma.main_user_id\n\t)\n\tSELECT COUNT(u.email) FROM public.\"user\" u\n\tLEFT JOIN machine_activity ma ON ma.main_user_id = u.id\n\tWHERE ma.max_last_commit_solution IS NULL\n\tOR to_timestamp(ma.max_last_commit_solution) < (DATE_TRUNC('day', NOW()) - INTERVAL '2 days')"

/-- Query of metric 4 of the older variant (src/unnamed/part_000 lines 82-91). -/
def oldChannelQuery : String :=
  "WITH select_user AS(\n\t\tSELECT u.email, ma.id, ma.name\n\t\tFROM miner_account ma\n\t\tLEFT JOIN \"public\".\"user\" u ON u.id = ma.main_user_id\n\t\tLEFT JOIN invitation_code ic ON ic.\"id\" = u.invitation_code_id\n\t\tWHERE ic.tag = 'zklion'\n\t)\n\tSELECT count(*) FROM machine m \n\tJOIN select_user su ON m.miner_account_id = su.id\n\tWHERE to_timestamp(m.last_commit_solution) >= DATE(NOW())"

def mOldMachines : MetricDef := { table := "machines_count", query := oldMachinesQuery }

def mOldActiveMachines : MetricDef :=
  { table := "active_machines_count", query := oldActiveMachinesQuery }

def mOldLostUsers : MetricDef := { table := "lost_users_count", query := oldLostUsersQuery }

def mOldChannel : MetricDef :=
  { table := "active_channel_machines_count", query := oldChannelQuery }

/-- The four metrics of the older variant's transferData, in program order. -/
def oldCatalog : List MetricDef :=
  [mOldMachines, mOldActiveMachines, mOldLostUsers, mOldChannel]

/-! ### One pipeline run (transferData, main.go lines 49-130) -/

/-- What one metric contributed to the run's log: a successful insert, or
the failure the process exited on. -/
inductive Outcome where
  | success (table : String) (count : Int)
  | sourceQueryFailed (table : String)
  | destinationWriteFailed (table : String)
deriving DecidableEq

/-- Walk the catalog in order: read the scalar, insert it with the run's
date; the first queryCount or insertToMySQL error ends the process
(os.Exit(1)), so nothing after it runs. Yields the per-metric outcome log,
the destination state and the exit code if one fired. -/
def runMetrics (src : Query) (today : String) :
    List MetricDef → DestDB → List Outcome × DestDB × Option Nat
  | [], db => ([], db, none)
  | m :: rest, db =>
    match queryCount src m.query with
    | Except.error c => ([Outcome.sourceQueryFailed m.table], db, some c)
    | Except.ok n =>
      match insertToMySQL db m.table today n with
      | (db2, Except.error c) => ([Outcome.destinationWriteFailed m.table], db2, some c)
      | (db2, Except.ok _) =>
        let r := runMetrics src today rest db2
        (Outcome.success m.table n :: r.1, r.2)

/-- The observable result of one transferData call. `connsClosed` records
whether the two deferred Close calls ran: Go skips deferred functions when
os.Exit fires, so they run only when the run completed normally. -/
structure RunResult where
  outcomes : List Outcome
  db : DestDB
  exitCode : Option Nat
  connsClosed : Bool

/-- transferData of src/main.go: compute today's date once (line 66), then
run the five-metric catalog against the stores. -/
def transferData (src : Query) (db : DestDB) (now : Nat) : RunResult :=
  let today := formatDate now
  let r := runMetrics src today mainCatalog db
  { outcomes := r.1, db := r.2.1, exitCode := r.2.2, connsClosed := r.2.2.isNone }

/-- transferData of the older variant (src/unnamed/part_000 lines 42-94):
same shape over its four-metric catalog. -/
def oldTransferData (src : Query) (db : DestDB) (now : Nat) : RunResult :=
  let today := formatDate now
  let r := runMetrics src today oldCatalog db
  { outcomes := r.1, db := r.2.1, exitCode := r.2.2, connsClosed := r.2.2.isNone }

/-! ### Startup and the scheduler loop -/

inductive StartupAction where
  | exitUsage (code : Nat)
  | enterLoop
deriving DecidableEq

/-- Startup of src/main.go (lines 21-28): a missing DSN prints the notice
and flag.Usage() and exits with status 1; otherwise the loop is entered. -/
def mainStartup (pgDsn mysqlDsn : String) : StartupAction :=
  if pgDsn = "" ∨ mysqlDsn = "" then StartupAction.exitUsage 1 else StartupAction.enterLoop

/-- Startup of the older variant (src/unnamed/part_000 lines 20-33): after
flag.Parse the loop is entered directly; no DSN check exists. -/
def oldMainStartup (_pgDsn _mysqlDsn : String) : StartupAction := StartupAction.enterLoop

/-- The scheduler after one more iteration: waiting for the next due time,
or terminated because the pipeline run exited the process. -/
inductive ProcState where
  | waiting (nextDue : Nat)
  | terminated (code : Nat)
deriving DecidableEq

/-- One iteration of the for-loop of main (main.go lines 30-41): wake at
the computed due time, run transferData; an os.Exit inside the run ends
the process, otherwise the loop computes the following due time (the run
itself is modelled as instantaneous). -/
def loopIter (src : Query) (db : DestDB) (now h m : Nat) : ProcState × DestDB :=
  let wake := nextExecution now h m
  let res := transferData src db wake
  match res.exitCode with
  | some c => (ProcState.terminated c, res.db)
  | none => (ProcState.waiting (nextExecution wake h m), res.db)

/-! ### Concrete fixtures for witnesses and counterexamples -/

/-- A source on which every catalog query succeeds with count 7. -/
def okSrc : Query := fun _ => some 7

/-- A source on which every query fails (connection down, say). -/
def failSrc : Query := fun _ => none

/-- A fresh destination: no rows, no genuinely failing table. -/
def emptyDB : DestDB := { rows := [], failing := fun _ => false }

/-- A destination already holding the 2024-03-01 row of machines_count. -/
def oneRowDB : DestDB :=
  { rows := [{ table := "machines_count", date := "2024-03-01", count := 7 }],
    failing := fun _ => false }

end OulaTransfer

namespace OulaTransfer

/-- Helper: queryCount succeeds with n exactly when the source's scalar
read yields n. -/
theorem queryCount_ok_iff (src : Query) (q : String) (n : Int) :
    queryCount src q = Except.ok n ↔ src q = some n := by
  cases hsq : src q <;> simp [queryCount, hsq]

/-- Helper: a run's exit code is none exactly when every metric outcome it
logged is a success. -/
theorem runMetrics_exit_none_iff (src : Query) (today : String) (cat : List MetricDef) :
    ∀ db : DestDB,
      (runMetrics src today cat db).2.2 = none ↔
        ∀ o ∈ (runMetrics src today cat db).1, ∃ t n, o = Outcome.success t n := by
  induction cat with
  | nil => intro db; simp [runMetrics]
  | cons m rest ih =>
    intro db
    cases hq : queryCount src m.query with
    | error c => simp [runMetrics, hq]
    | ok n =>
      rcases hins : insertToMySQL db m.table today n with ⟨db2, e⟩
      cases e with
      | error c => simp [runMetrics, hq, hins]
      | ok u => simpa [runMetrics, hq, hins] using ih db2

/-- Helper: one insertToMySQL call leaves the rows unchanged or conses
exactly one row carrying the date it was given. -/
theorem insertToMySQL_rows (db : DestDB) (t d : String) (n : Int) :
    (insertToMySQL db t d n).1.rows = db.rows ∨
      (insertToMySQL db t d n).1.rows
        = { table := t, date := d, count := n } :: db.rows := by
  cases hf : db.failing t with
  | true => left; simp [insertToMySQL, dbInsert, hf]
  | false =>
    cases hd : db.rows.any fun r => r.table == t && r.date == d with
    | true => left; simp [insertToMySQL, dbInsert, hf, hd]
    | false => right; simp [insertToMySQL, dbInsert, hf, hd]

/-- Helper: every row present after a run over a catalog is a pre-existing
row or carries the date the run was given. -/
theorem runMetrics_rows_date (src : Query) (today : String) (cat : List MetricDef) :
    ∀ (db : DestDB) (r : Row),
      r ∈ (runMetrics src today cat db).2.1.rows → r ∈ db.rows ∨ r.date = today := by
  induction cat with
  | nil => intro db r h; left; simpa [runMetrics] using h
  | cons m rest ih =>
    intro db r h
    cases hq : queryCount src m.query with
    | error c => left; simpa [runMetrics, hq] using h
    | ok n =>
      rcases hins : insertToMySQL db m.table today n with ⟨db2, e⟩
      have hrows := insertToMySQL_rows db m.table today n
      rw [hins] at hrows
      cases e with
      | error c =>
        simp only [runMetrics, hq, hins] at h
        rcases hrows with h2 | h2 <;> rw [h2] at h
        · exact Or.inl h
        · rcases List.mem_cons.mp h with h3 | h3
          · right; rw [h3]
          · exact Or.inl h3
      | ok u =>
        simp only [runMetrics, hq, hins] at h
        rcases ih db2 r h with h2 | h2
        · rcases hrows with h3 | h3 <;> rw [h3] at h2
          · exact Or.inl h2
          · rcases List.mem_cons.mp h2 with h4 | h4
            · right; rw [h4]
            · exact Or.inl h4
        · exact Or.inr h2

/-- Helper: a success outcome for table t with count n comes from a
catalog entry for t whose source query yielded n. -/
theorem runMetrics_success_source (src : Query) (today : String) (cat : List MetricDef) :
    ∀ (db : DestDB) (t : String) (n : Int),
      Outcome.success t n ∈ (runMetrics src today cat db).1 →
      ∃ md, md ∈ cat ∧ md.table = t ∧ src md.query = some n := by
  induction cat with
  | nil => intro db t n h; simp [runMetrics] at h
  | cons m rest ih =>
    intro db t n h
    cases hq : queryCount src m.query with
    | error c => simp [runMetrics, hq] at h
    | ok k =>
      have hsrc : src m.query = some k := (queryCount_ok_iff src m.query k).mp hq
      rcases hins : insertToMySQL db m.table today k with ⟨db2, e⟩
      cases e with
      | error c => simp [runMetrics, hq, hins] at h
      | ok u =>
        simp only [runMetrics, hq, hins, List.mem_cons] at h
        rcases h with h1 | h1
        · injection h1 with ht hn
          subst ht; subst hn
          exact ⟨m, List.mem_cons_self m rest, rfl, hsrc⟩
        · obtain ⟨md, hmem, hmd⟩ := ih db2 t n h1
          exact ⟨md, List.mem_cons_of_mem m hmem, hmd⟩

/-- Helper: a transferData run exits with no code exactly when every
outcome it logged is a success. -/
theorem transferData_exit_none_iff (src : Query) (db : DestDB) (now : Nat) :
    (transferData src db now).exitCode = none ↔
      ∀ o ∈ (transferData src db now).outcomes, ∃ t n, o = Outcome.success t n := by
  simpa [transferData] using runMetrics_exit_none_iff src (formatDate now) mainCatalog db

/-- C2: for every valid HH:MM (hour in [0,23], minute in [0,59]) the due
time computed by the scheduler is today at that time of day when that
instant is not yet past, otherwise tomorrow at that time of day (which in
this drift-free timeline is the same time of day one calendar day later),
and it is never strictly in the past at the moment of computation. -/
theorem nextExecution_correct (now h m : Nat) (hh : h ≤ 23) (hm : m ≤ 59) :
    (now ≤ todayAt now h m → nextExecution now h m = todayAt now h m) ∧
    (todayAt now h m < now → nextExecution now h m = tomorrowAt now h m) ∧
    now ≤ nextExecution now h m ∧
    tomorrowAt now h m = todayAt (now + secondsPerDay) h m := by
  simp only [nextExecution, tomorrowAt, todayAt, todayStart, timeOfDay, secondsPerDay]
  split <;> refine ⟨?_, ?_, ?_, ?_⟩ <;> omega

/-- Witness for C2 at the spec's scenario: at 22:00 (79200 s into the day)
with ExecutionTime 23:00, the run is scheduled today at 23:00. -/
theorem nextExecution_correct_witness :
    (79200 ≤ todayAt 79200 23 0 → nextExecution 79200 23 0 = todayAt 79200 23 0) ∧
    (todayAt 79200 23 0 < 79200 → nextExecution 79200 23 0 = tomorrowAt 79200 23 0) ∧
    79200 ≤ nextExecution 79200 23 0 ∧
    tomorrowAt 79200 23 0 = todayAt (79200 + secondsPerDay) 23 0 :=
  nextExecution_correct 79200 23 0 (by decide) (by decide)

/-- C6 counterexample: the unparseable input "abc" silently yields the
all-zero pair (0, 0) and the out-of-range input "99:99" passes through
unvalidated; parseExecutionTime has no error outcome at all (its type is
a total pair of integers). -/
theorem malformed_time_silently_accepted :
    parseExecutionTime "abc" = (0, 0) ∧ parseExecutionTime "99:99" = (99, 99) := by
  decide

/-- C6 amended: parseExecutionTime ignores Sscanf's error and returns
whatever was assigned, with no range validation and no diagnosable error:
unparseable input yields (0, 0), a missing minute yields minute 0, and
out-of-range or negative numbers are returned as scanned. -/
theorem parseExecutionTime_unvalidated :
    parseExecutionTime "abc" = (0, 0) ∧
    parseExecutionTime "99:99" = (99, 99) ∧
    parseExecutionTime "-3:10" = (-3, 10) ∧
    parseExecutionTime "12" = (12, 0) ∧
    parseExecutionTime "23:00" = (23, 0) ∧
    parseExecutionTime "7:5" = (7, 5) := by
  decide

/-- C1 counterexample: with a source on which the first catalog query
fails, the run of src/main.go produces an outcome for only 1 of its 5
metrics and the process exits with code 1 — the failure is not isolated
to that metric and the subsequent metrics are never evaluated. -/
theorem source_failure_not_isolated :
    mainCatalog.length = 5 ∧
    (transferData failSrc emptyDB 0).outcomes.length = 1 ∧
    (transferData failSrc emptyDB 0).exitCode = some 1 :=
  ⟨rfl, rfl, rfl⟩

/-- C1 corrected: a failed source query is not isolated — queryCount calls
os.Exit(1), so the run stops at the failing metric; the metrics after it
are never evaluated (no outcome is produced for them) and the destination
state is left as it was at that point. -/
theorem source_failure_stops_run (src : Query) (today : String) (m : MetricDef)
    (rest : List MetricDef) (db : DestDB) (h : src m.query = none) :
    runMetrics src today (m :: rest) db
      = ([Outcome.sourceQueryFailed m.table], db, some 1) := by
  simp [runMetrics, queryCount, h]

/-- Witness for C1's corrected theorem: the failing source stops the
five-metric run of src/main.go at its first metric. -/
theorem source_failure_stops_run_witness :
    runMetrics failSrc "2024-03-01"
        (mAleoActive :: [mQuaiActive, mLostUsers, mAleoChannel, mQuaiChannel]) emptyDB
      = ([Outcome.sourceQueryFailed mAleoActive.table], emptyDB, some 1) :=
  source_failure_stops_run failSrc "2024-03-01" mAleoActive
    [mQuaiActive, mLostUsers, mAleoChannel, mQuaiChannel] emptyDB rfl

/-- C3 counterexample: running the pipeline twice for the same date, the
second run's first insert hits the duplicate key and the process exits
with code 1 — the duplicate is treated as fatal, the run is aborted at
that metric, and the destination keeps the first run's rows. -/
theorem duplicate_key_aborts_second_run :
    (transferData okSrc (transferData okSrc emptyDB 0).db 0).exitCode = some 1 ∧
    (transferData okSrc (transferData okSrc emptyDB 0).db 0).outcomes
      = [Outcome.destinationWriteFailed "active_machines_count_aleo"] ∧
    (transferData okSrc (transferData okSrc emptyDB 0).db 0).db.rows
      = (transferData okSrc emptyDB 0).db.rows :=
  ⟨rfl, rfl, rfl⟩

/-- C3 corrected: a duplicate-key rejection is handled exactly like a
genuine write error — insertToMySQL inspects no error kind and exits the
process with code 1; the rejected insert leaves the destination rows
unchanged, so a second same-date run still leaves one row per metric per
date, but it aborts instead of recording a benign outcome. -/
theorem duplicate_key_insert_fatal (db : DestDB) (t d : String) (n : Int)
    (hdup : (db.rows.any fun r => r.table == t && r.date == d) = true) :
    (insertToMySQL db t d n).2 = Except.error 1 ∧
    (insertToMySQL db t d n).1.rows = db.rows := by
  cases hf : db.failing t <;> simp [insertToMySQL, dbInsert, hf, hdup]

/-- Witness for C3's corrected theorem: inserting the machines_count row
for 2024-03-01 into a destination that already holds that date exits with
code 1 and writes nothing. -/
theorem duplicate_key_insert_fatal_witness :
    (insertToMySQL oneRowDB "machines_count" "2024-03-01" 7).2 = Except.error 1 ∧
    (insertToMySQL oneRowDB "machines_count" "2024-03-01" 7).1.rows = oneRowDB.rows :=
  duplicate_key_insert_fatal oneRowDB "machines_count" "2024-03-01" 7 (by decide)

/-- C4 counterexample: one loop iteration whose pipeline run fails (the
source is down) terminates the process with exit code 1 instead of
returning to the waiting state. -/
theorem pipeline_failure_terminates_loop :
    (loopIter failSrc emptyDB 0 23 0).1 = ProcState.terminated 1 :=
  rfl

/-- C4 corrected: after a run, the loop returns to Waiting (with the next
due time computed) exactly when every metric of that run succeeded; any
metric failure exits the process — a terminal state reached by the
program's own logic. -/
theorem loop_waits_iff_run_all_success (src : Query) (db : DestDB) (now h m : Nat) :
    (∃ d, (loopIter src db now h m).1 = ProcState.waiting d) ↔
      ∀ o ∈ (transferData src db (nextExecution now h m)).outcomes,
        ∃ t n, o = Outcome.success t n := by
  rw [← transferData_exit_none_iff]
  simp only [loopIter]
  cases hx : (transferData src db (nextExecution now h m)).exitCode with
  | some c => simp [hx]
  | none => simp [hx]

/-- C5 counterexample: on the run whose first source query fails, the
process exits without running the deferred Close calls — the two
connections opened at run start are not closed on that exit path. -/
theorem failed_run_leaves_conns_open :
    (transferData failSrc emptyDB 0).connsClosed = false :=
  rfl

/-- C5 corrected: the deferred Close calls for the two connections run
exactly when every metric of the run succeeded; on any failing source
query or insert, os.Exit fires first and skips the defers, so neither
connection is closed by the program on that exit path. -/
theorem conns_closed_iff_run_all_success (src : Query) (db : DestDB) (now : Nat) :
    (transferData src db now).connsClosed = true ↔
      ∀ o ∈ (transferData src db now).outcomes, ∃ t n, o = Outcome.success t n := by
  rw [← transferData_exit_none_iff]
  simp [transferData, Option.isNone_iff_eq_none]

/-- C7 counterexample: the older variant performs no DSN check — with the
source DSN missing it enters the scheduling loop instead of exiting with
a usage message. -/
theorem old_variant_skips_dsn_check :
    oldMainStartup "" "mysql-dsn" = StartupAction.enterLoop :=
  rfl

/-- C7 corrected: in src/main.go a missing DSN (either one) exits with
status 1 after the usage message, and with both present the loop is
entered; the older variant src/unnamed/part_000 has no such check and
enters the loop unconditionally. -/
theorem startup_dsn_check :
    (∀ p q : String, mainStartup p q = StartupAction.exitUsage 1 ↔ (p = "" ∨ q = "")) ∧
    (∀ p q : String, mainStartup p q = StartupAction.enterLoop ↔ ¬(p = "" ∨ q = "")) ∧
    (∀ p q : String, oldMainStartup p q = StartupAction.enterLoop) := by
  refine ⟨fun p q => ?_, fun p q => ?_, fun p q => rfl⟩ <;>
    by_cases h : p = "" ∨ q = "" <;> simp [mainStartup, h]

/-- C8: every row present after a run of src/main.go's transferData is a
pre-existing row or carries the one date computed at run start, so all
rows written by one run share that date even if the run crosses midnight. -/
theorem run_rows_share_start_date (src : Query) (db : DestDB) (now : Nat) (r : Row)
    (h : r ∈ (transferData src db now).db.rows) :
    r ∈ db.rows ∨ r.date = formatDate now :=
  runMetrics_rows_date src (formatDate now) mainCatalog db r h

/-- Witness for C8: the run started at 2024-03-01 00:00 UTC writes the
active-machines row with that very date. -/
theorem run_rows_share_start_date_witness :
    ({ table := "active_machines_count_aleo", date := "2024-03-01", count := 7 } : Row)
        ∈ emptyDB.rows ∨
      ({ table := "active_machines_count_aleo", date := "2024-03-01", count := 7 } : Row).date
        = formatDate 1709251200 :=
  run_rows_share_start_date okSrc emptyDB 1709251200
    { table := "active_machines_count_aleo", date := "2024-03-01", count := 7 } (by decide)

/-- C9: a scalar read whose source yields no integer (no row, NULL, or any
other non-nil Scan error) is a failure of queryCount, never a count of
zero: queryCount exits with code 1 and returns no value at all. -/
theorem null_scan_is_failure (src : Query) (q : String) (h : src q = none) :
    queryCount src q = Except.error 1 ∧ ∀ n : Int, queryCount src q ≠ Except.ok n := by
  simp [queryCount, h]

/-- Witness for C9: the down source makes queryCount exit rather than
yield zero. -/
theorem null_scan_is_failure_witness :
    queryCount failSrc oldMachinesQuery = Except.error 1 ∧
    ∀ n : Int, queryCount failSrc oldMachinesQuery ≠ Except.ok n :=
  null_scan_is_failure failSrc oldMachinesQuery rfl

/-- C10: in the older variant the machines_count and active_machines_count
queries are character-for-character the same string, so whenever one run
logs a success for both metrics, the two counts it wrote are equal. -/
theorem old_duplicate_metric_queries (src : Query) (db : DestDB) (now : Nat) (n1 n2 : Int)
    (h1 : Outcome.success "machines_count" n1 ∈ (oldTransferData src db now).outcomes)
    (h2 : Outcome.success "active_machines_count" n2 ∈ (oldTransferData src db now).outcomes) :
    oldMachinesQuery = oldActiveMachinesQuery ∧ n1 = n2 := by
  refine ⟨rfl, ?_⟩
  obtain ⟨md1, hm1, ht1, hq1⟩ :=
    runMetrics_success_source src (formatDate now) oldCatalog db "machines_count" n1 h1
  obtain ⟨md2, hm2, ht2, hq2⟩ :=
    runMetrics_success_source src (formatDate now) oldCatalog db "active_machines_count" n2 h2
  simp only [oldCatalog, List.mem_cons, List.not_mem_nil, or_false] at hm1 hm2
  have e1 : src oldMachinesQuery = some n1 := by
    rcases hm1 with rfl | rfl | rfl | rfl
    · exact hq1
    · exact absurd ht1 (by decide)
    · exact absurd ht1 (by decide)
    · exact absurd ht1 (by decide)
  have e2 : src oldActiveMachinesQuery = some n2 := by
    rcases hm2 with rfl | rfl | rfl | rfl
    · exact absurd ht2 (by decide)
    · exact hq2
    · exact absurd ht2 (by decide)
    · exact absurd ht2 (by decide)
  have e3 : src oldMachinesQuery = some n2 := e2
  rw [e1] at e3
  exact Option.some.inj e3

/-- Witness for C10: the all-sevens source run logs both successes and the
counts agree. -/
theorem old_duplicate_metric_queries_witness :
    oldMachinesQuery = oldActiveMachinesQuery ∧ (7 : Int) = 7 :=
  old_duplicate_metric_queries okSrc emptyDB 0 7 7 (by decide) (by decide)

end OulaTransfer
